import Mathlib

/-!
Verification of the OpenID Connect Relying Party engine
(`src/client/src/index.ts`, class `OpenIDConnectRP`) against its
natural-language specification.

The TypeScript class is shallowly embedded: the configuration record and
the instance fields (`config`, `state`, `nonce`) become a Lean structure,
each method becomes a Lean function, and the mutable-state discipline of
the class is made explicit by having every public method return the
post-call engine value alongside its result.  Network transport
(`fetch`) and the platform JSON decoder are modelled as explicit
parameters, since they are host primitives, not repository code.
JavaScript string truthiness (`!x` is true for `undefined` and `""`) is
modelled by `jsTruthy` on `Option String`.
-/

/-- JavaScript truthiness of a possibly-absent string: `undefined` and
`""` are falsy, every other string is truthy. -/
def jsTruthy (o : Option String) : Bool :=
  match o with
  | none => false
  | some s => s != ""

/-- Models the JavaScript expression `x || d` for a possibly-absent
string `x` and a string default `d` (used by the constructor for
`responseType`, `scope`, `state`, `nonce`). -/
def jsOr (o : Option String) (d : String) : String :=
  match o with
  | none => d
  | some s => if s = "" then d else s

/-- Models the JavaScript expression `x || undefined` for a
possibly-absent string `x` (used by `handleCallback` for
`error_description`). -/
def jsOrUndefined (o : Option String) : Option String :=
  if jsTruthy o then o else none

/-- Models `String.prototype.split` with a single-character separator
(always returns at least one piece; adjacent separators yield empty
pieces), operating on character lists. -/
def splitOnChar (sep : Char) : List Char → List (List Char)
  | [] => [[]]
  | c :: rest =>
    if c = sep then [] :: splitOnChar sep rest
    else
      match splitOnChar sep rest with
      | h :: t => (c :: h) :: t
      | [] => [[c]]

/-- `String.prototype.split(".")` as used by `validateIdToken`. -/
def jsSplitDot (s : String) : List String :=
  (splitOnChar '.' s.toList).map String.mk

/-- Joins character-list pieces with a separator character (used to
rebuild a query value containing further `=` signs). -/
def joinSepChar (sep : Char) : List (List Char) → List Char
  | [] => []
  | [x] => x
  | x :: xs => x ++ sep :: joinSepChar sep xs

/-- Hexadecimal digit value, if any. -/
def hexVal (c : Char) : Option Nat :=
  if '0' ≤ c ∧ c ≤ '9' then some (c.toNat - 48)
  else if 'A' ≤ c ∧ c ≤ 'F' then some (c.toNat - 55)
  else if 'a' ≤ c ∧ c ≤ 'f' then some (c.toNat - 87)
  else none

/-- Model of `application/x-www-form-urlencoded` percent-decoding as
performed by `URLSearchParams`: `+` becomes a space, `%XX` with two hex
digits becomes the character of that byte value (multi-byte UTF-8
percent sequences are not modelled; no claim depends on them), and
malformed escapes are kept verbatim. -/
def formUrlDecodeAux : List Char → List Char
  | [] => []
  | '%' :: a :: b :: rest =>
    match hexVal a, hexVal b with
    | some x, some y => Char.ofNat (16 * x + y) :: formUrlDecodeAux rest
    | _, _ => '%' :: formUrlDecodeAux (a :: b :: rest)
  | '+' :: rest => ' ' :: formUrlDecodeAux rest
  | c :: rest => c :: formUrlDecodeAux rest

/-- `application/x-www-form-urlencoded` percent-decoding on strings. -/
def formUrlDecode (s : String) : String :=
  String.mk (formUrlDecodeAux s.toList)

/-- Model of the `URLSearchParams(search)` parser: strip one leading
`?`, split the rest on `&`, drop empty pieces, split each piece at its
first `=` (key before, the rest — further `=` included — after), and
percent-decode both sides.  The result keeps the original order. -/
def parseSearchParams (search : String) : List (String × String) :=
  let cs :=
    match search.toList with
    | '?' :: rest => rest
    | other => other
  ((splitOnChar '&' cs).filter (fun piece => piece ≠ [])).map
    (fun piece =>
      match splitOnChar '=' piece with
      | [] => (formUrlDecode (String.mk piece), "")
      | k :: rest =>
        (formUrlDecode (String.mk k), formUrlDecode (String.mk (joinSepChar '=' rest))))

/-- `URLSearchParams.get`: the first value recorded for the key, or
`none` (JavaScript `null`) when the key never occurs. -/
def paramsGet (params : List (String × String)) (key : String) : Option String :=
  (params.find? (fun p => p.fst == key)).map (fun p => p.snd)

/-- The piece of a parsed URL that `handleCallback` consumes. -/
structure URLRecord where
  search : String
deriving DecidableEq, Repr

/-- Is `c` allowed in a URL scheme after the initial letter? -/
def isSchemeChar (c : Char) : Bool :=
  c.isAlphanum || c = '+' || c = '-' || c = '.'

/-- Model of the WHATWG `new URL(url)` parser (a platform primitive,
not repository code), reduced to what `handleCallback` consumes: the
string must begin with a scheme (a letter followed by letters, digits,
`+`, `-`, `.`) terminated by `:`, otherwise parsing fails (as for the
input `"not a url"`, where the real parser throws `TypeError: Invalid
URL`).  The `search` component is the part of the remainder from the
first `?` up to the fragment delimiter `#`.  The model accepts a
superset of the strings the real parser accepts and does not perform
URL normalization; the claims at issue concern only query extraction on
plain ASCII URLs, where the two agree. -/
def urlParse (url : String) : Option URLRecord :=
  match url.toList with
  | [] => none
  | c :: rest =>
    if c.isAlpha then
      let schemeTail := rest.takeWhile isSchemeChar
      match rest.drop schemeTail.length with
      | ':' :: afterColon =>
        let beforeFrag := afterColon.takeWhile (fun ch => ch ≠ '#')
        some { search := String.mk (beforeFrag.dropWhile (fun ch => ch ≠ '?')) }
      | _ => none
    else none

/-- `OpenIDConfiguration` from `src/client/src/index.ts`.  The four
required fields are `String`s; a field absent at runtime behaves
exactly like the empty string in every check the source performs (both
are falsy), so a missing or empty field is modelled as `""`.  Optional
fields are `Option`s.  `maxAge` is a JavaScript number, modelled as
`Int` (fractional values are not modelled; no claim depends on them). -/
structure OpenIDConfiguration where
  clientId : String
  redirectUri : String
  responseType : Option String
  scope : Option String
  authorizationEndpoint : String
  tokenEndpoint : String
  userinfoEndpoint : Option String
  jwksUri : Option String
  clientSecret : Option String
  responseMode : Option String
  state : Option String
  nonce : Option String
  display : Option String
  prompt : Option String
  maxAge : Option Int
  uiLocales : Option String
  idTokenHint : Option String
  loginHint : Option String
  acrValues : Option String
deriving DecidableEq, Repr

/-- `TokenResponse` from `src/client/src/index.ts`. -/
structure TokenResponse where
  access_token : String
  token_type : String
  refresh_token : Option String
  expires_in : Option Int
  id_token : Option String
  scope : Option String
deriving DecidableEq, Repr

/-- The `aud` claim of a decoded ID-token payload: a string, an array
of strings, or absent (other JSON types behave like `absent` in the
source's check and are not modelled separately). -/
inductive AudClaim where
  | absent : AudClaim
  | str : String → AudClaim
  | arr : List String → AudClaim
deriving DecidableEq, Repr

/-- The claims of `IDTokenPayload` that `validateIdToken` actually
reads, as produced by the platform's `JSON.parse` (which enforces no
TypeScript types, so every claim may be absent). -/
structure IDTokenPayload where
  iss : Option String
  aud : AudClaim
  exp : Option Int
  nonce : Option String
deriving DecidableEq, Repr

/-- The record a successful `UserInfo` JSON body decodes to (open
extension claims are not modelled; no claim depends on them). -/
structure UserInfo where
  sub : String
deriving DecidableEq, Repr

/-- Model of a settled `fetch` `Response` as the source consumes it:
the `ok` flag, the `statusText`, and the outcome of `response.json()`
(`Except.error` being a rejected body parse, carrying the message of
the raised error). -/
structure FetchResponse (α : Type) where
  ok : Bool
  statusText : String
  json : Except String α
deriving Repr

/-- A transport outcome: either `fetch` itself rejected (with the
message of the raised error) or it settled with a response. -/
abbrev FetchOutcome (α : Type) := Except String (FetchResponse α)

/-- The instance fields of class `OpenIDConnectRP`: the merged
configuration plus the two flow secrets. -/
structure RP where
  config : OpenIDConfiguration
  state : String
  nonce : String
deriving DecidableEq, Repr

/-- The character set of `generateRandomString`. -/
def charsetChars : List Char :=
  "ABCDEFGHIJKLMNOPQRSTUVWXYZabcdefghijklmnopqrstuvwxyz0123456789".toList

/-- `generateRandomString` from the source: `length` characters, the
`i`-th being `charset[randomValues[i] % charset.length]`.  The random
byte source (`crypto.getRandomValues` or the `Math.random` fallback)
is modelled as the explicit function `randomValues`. -/
def generateRandomString (randomValues : Nat → Nat) (length : Nat) : String :=
  String.mk ((List.range length).map
    (fun i => charsetChars.getD (randomValues i % charsetChars.length) 'A'))

/-- The `OpenIDConnectRP` constructor: validates the four required
fields in order (throwing, modelled as `Except.error`, with the
message naming the field), merges the `responseType` and `scope`
defaults, and sets `state` and `nonce` from the configuration when
truthy, else from `generateRandomString` (whose byte sources are the
explicit parameters `stateRand` and `nonceRand`). -/
def mkRP (cfg : OpenIDConfiguration) (stateRand nonceRand : Nat → Nat) :
    Except String RP :=
  if cfg.clientId = "" then Except.error "clientId is required"
  else if cfg.redirectUri = "" then Except.error "redirectUri is required"
  else if cfg.authorizationEndpoint = "" then Except.error "authorizationEndpoint is required"
  else if cfg.tokenEndpoint = "" then Except.error "tokenEndpoint is required"
  else
    Except.ok
      { config :=
          { cfg with
            responseType := some (jsOr cfg.responseType "code")
            scope := some (jsOr cfg.scope "openid profile email") }
        state := jsOr cfg.state (generateRandomString stateRand 32)
        nonce := jsOr cfg.nonce (generateRandomString nonceRand 32) }

/-- One conditional `params.append(key, value)` for an optional string
configuration field: appended exactly when the field is truthy
(`if (this.config.x) { params.append(...) }`). -/
def truthyParam (key : String) (v : Option String) : List (String × String) :=
  match v with
  | none => []
  | some s => if s = "" then [] else [(key, s)]

/-- The conditional `max_age` append: the source tests
`this.config.maxAge !== undefined` (not truthiness), so `0` is
appended, serialized by `Number.prototype.toString` (decimal). -/
def maxAgeParam (v : Option Int) : List (String × String) :=
  match v with
  | none => []
  | some n => [("max_age", toString n)]

/-- The query-parameter list `generateAuthorizationUrl` builds: the six
unconditional parameters of the `URLSearchParams` literal, then the
conditional appends in source order. -/
def authorizationParams (rp : RP) : List (String × String) :=
  [("client_id", rp.config.clientId),
   ("redirect_uri", rp.config.redirectUri),
   ("response_type", Option.getD rp.config.responseType ""),
   ("scope", Option.getD rp.config.scope ""),
   ("state", rp.state),
   ("nonce", rp.nonce)]
  ++ truthyParam "response_mode" rp.config.responseMode
  ++ truthyParam "display" rp.config.display
  ++ truthyParam "prompt" rp.config.prompt
  ++ maxAgeParam rp.config.maxAge
  ++ truthyParam "ui_locales" rp.config.uiLocales
  ++ truthyParam "id_token_hint" rp.config.idTokenHint
  ++ truthyParam "login_hint" rp.config.loginHint
  ++ truthyParam "acr_values" rp.config.acrValues

/-- One character of the `application/x-www-form-urlencoded` serializer
used by `URLSearchParams.toString`: ASCII alphanumerics and `*`, `-`,
`.`, `_` stand for themselves, space becomes `+`, anything else is
percent-encoded (multi-byte UTF-8 encoding of non-ASCII characters is
not modelled; no claim depends on it). -/
def formEncodeChar (c : Char) : String :=
  if c.isAlphanum || c = '*' || c = '-' || c = '.' || c = '_' then String.mk [c]
  else if c = ' ' then "+"
  else
    let n := c.toNat % 256
    let hexDigit := fun (d : Nat) => charsetChars.getD (if d < 10 then 52 + d else d - 10) '0'
    String.mk ['%', hexDigit (n / 16), hexDigit (n % 16)]

/-- `application/x-www-form-urlencoded` encoding of one string. -/
def formUrlEncode (s : String) : String :=
  String.join (s.toList.map formEncodeChar)

/-- `URLSearchParams.toString`: `key=value` pairs joined by `&`, both
sides form-url-encoded. -/
def serializeParams (params : List (String × String)) : String :=
  String.intercalate "&" (params.map (fun p => formUrlEncode p.fst ++ "=" ++ formUrlEncode p.snd))

/-- `generateAuthorizationUrl`: the authorization endpoint with the
serialized parameter list as its query. -/
def generateAuthorizationUrl (rp : RP) : String :=
  rp.config.authorizationEndpoint ++ "?" ++ serializeParams (authorizationParams rp)

/-- `generateAuthorizationUrl` with the instance state threaded
explicitly: the method body reads `this.config`, `this.state`,
`this.nonce` and assigns nothing, so the post-call instance is the
pre-call instance. -/
def generateAuthorizationUrlS (rp : RP) : String × RP :=
  (generateAuthorizationUrl rp, rp)

/-- The form body `getToken` posts to the token endpoint
(`client_secret` appended only when truthy). -/
def getTokenParams (rp : RP) (code : String) : List (String × String) :=
  [("grant_type", "authorization_code"),
   ("code", code),
   ("redirect_uri", rp.config.redirectUri),
   ("client_id", rp.config.clientId)]
  ++ truthyParam "client_secret" rp.config.clientSecret

/-- How `getToken` turns a transport outcome into a result: a rejected
`fetch` propagates, a non-`ok` response throws
`Token request failed: <statusText>`, an `ok` response yields the
outcome of `response.json()`. -/
def getTokenResult (fo : FetchOutcome TokenResponse) : Except String TokenResponse :=
  match fo with
  | Except.error m => Except.error m
  | Except.ok r =>
    if r.ok then r.json
    else Except.error ("Token request failed: " ++ r.statusText)

/-- `getToken` with the instance state threaded explicitly: the method
reads the configuration to build its request and assigns nothing.  The
triple records the request body it posts, the result, and the
post-call instance. -/
def getTokenS (rp : RP) (code : String) (fo : FetchOutcome TokenResponse) :
    List (String × String) × Except String TokenResponse × RP :=
  (getTokenParams rp code, getTokenResult fo, rp)

/-- The form body `refreshToken` posts to the token endpoint. -/
def refreshTokenParams (rp : RP) (refreshTok : String) : List (String × String) :=
  [("grant_type", "refresh_token"),
   ("refresh_token", refreshTok),
   ("client_id", rp.config.clientId)]
  ++ truthyParam "client_secret" rp.config.clientSecret

/-- How `refreshToken` turns a transport outcome into a result
(non-`ok` responses throw `Token refresh failed: <statusText>`). -/
def refreshTokenResult (fo : FetchOutcome TokenResponse) : Except String TokenResponse :=
  match fo with
  | Except.error m => Except.error m
  | Except.ok r =>
    if r.ok then r.json
    else Except.error ("Token refresh failed: " ++ r.statusText)

/-- `refreshToken` with the instance state threaded explicitly. -/
def refreshTokenS (rp : RP) (refreshTok : String) (fo : FetchOutcome TokenResponse) :
    List (String × String) × Except String TokenResponse × RP :=
  (refreshTokenParams rp refreshTok, refreshTokenResult fo, rp)

/-- `getUserInfo` with the instance state threaded explicitly: a falsy
`userinfoEndpoint` throws `userinfoEndpoint is not configured`; a
non-`ok` response throws `UserInfo request failed: <statusText>`; an
`ok` response yields the outcome of `response.json()`. -/
def getUserInfoS (rp : RP) (accessToken : String) (fo : FetchOutcome UserInfo) :
    (String × String) × Except String UserInfo × RP :=
  (("Authorization", "Bearer " ++ accessToken),
   if jsTruthy rp.config.userinfoEndpoint then
      match fo with
      | Except.error m => Except.error m
      | Except.ok r =>
        if r.ok then r.json
        else Except.error ("UserInfo request failed: " ++ r.statusText)
    else Except.error "userinfoEndpoint is not configured", rp)

/-- The expiry check of `validateIdToken`: `payload.exp <= now` — a
JavaScript comparison against `undefined` is false, so an absent `exp`
never fails this check. -/
def expCheckFails (exp : Option Int) (now : Int) : Bool :=
  match exp with
  | none => false
  | some e => if e ≤ now then true else false

/-- The issuer check of `validateIdToken`: `!payload.iss` — fails when
the claim is absent or the empty string. -/
def issCheckFails (iss : Option String) : Bool :=
  match iss with
  | none => true
  | some s => s == ""

/-- The audience check of `validateIdToken`:
`payload.aud !== clientId && (!Array.isArray(payload.aud) || !payload.aud.includes(clientId))`. -/
def audCheckFails (aud : AudClaim) (clientId : String) : Bool :=
  match aud with
  | AudClaim.absent => true
  | AudClaim.str s => s != clientId
  | AudClaim.arr l => !(l.contains clientId)

/-- The nonce check of `validateIdToken`:
`payload.nonce && payload.nonce !== this.nonce` — only a truthy
(present, non-empty) claim is compared. -/
def nonceCheckFails (nonce : Option String) (rpNonce : String) : Bool :=
  match nonce with
  | none => false
  | some n => n != "" && n != rpNonce

/-- `validateIdToken`: split on `.` requiring exactly three segments,
decode the middle segment (the platform's `atob` + `JSON.parse`
composition is the explicit parameter `decode`; `none` models a thrown
decode or parse error, caught by the source's `try`/`catch` which
returns `false`), then run the four claim checks in source order.
`now` is `Math.floor(Date.now() / 1000)`. -/
def validateIdToken (rp : RP) (decode : String → Option IDTokenPayload)
    (now : Int) (idToken : String) : Bool :=
  match jsSplitDot idToken with
  | [_, payloadPart, _] =>
    match decode payloadPart with
    | none => false
    | some payload =>
      if expCheckFails payload.exp now then false
      else if issCheckFails payload.iss then false
      else if audCheckFails payload.aud rp.config.clientId then false
      else if nonceCheckFails payload.nonce rp.nonce then false
      else true
  | _ => false

/-- `validateIdToken` with the instance state threaded explicitly. -/
def validateIdTokenS (rp : RP) (decode : String → Option IDTokenPayload)
    (now : Int) (idToken : String) : Bool × RP :=
  (validateIdToken rp decode now idToken, rp)

/-- The `handleCallback` result record (`tokenResponse?`, `error?`,
`errorDescription?`). -/
structure CallbackResult where
  tokenResponse : Option TokenResponse
  error : Option String
  errorDescription : Option String
deriving DecidableEq, Repr

/-- `handleCallback` with the instance state threaded explicitly.  The
first component is the outcome: `Except.error` models an exception
escaping to the caller — which happens exactly when `new URL(url)`
throws (`TypeError: Invalid URL`), the one statement outside any
`try`.  The middle component records the code passed to `getToken`
(`none` when no token exchange was attempted).  Steps, as in the
source: provider `error` (truthy) first, then the `state` equality
check, then `code` extraction, then the code exchange with its
`try`/`catch` funnelling any failure into a `token_error` result. -/
def handleCallbackS (rp : RP) (fo : FetchOutcome TokenResponse) (url : String) :
    Except String CallbackResult × Option String × RP :=
  match urlParse url with
  | none => (Except.error "Invalid URL", none, rp)
  | some u =>
    let params := parseSearchParams u.search
    let perror := paramsGet params "error"
    if jsTruthy perror then
      (Except.ok
        { tokenResponse := none
          error := perror
          errorDescription := jsOrUndefined (paramsGet params "error_description") },
       none, rp)
    else
      let pstate := paramsGet params "state"
      if jsTruthy pstate && (pstate == some rp.state) then
        match paramsGet params "code" with
        | some c =>
          if c = "" then
            (Except.ok
              { tokenResponse := none
                error := some "invalid_response"
                errorDescription := some "Authorization code is missing" },
             none, rp)
          else
            match getTokenResult fo with
            | Except.ok t =>
              (Except.ok { tokenResponse := some t, error := none, errorDescription := none },
               some c, rp)
            | Except.error m =>
              (Except.ok
                { tokenResponse := none
                  error := some "token_error"
                  errorDescription := some m },
               some c, rp)
        | none =>
          (Except.ok
            { tokenResponse := none
              error := some "invalid_response"
              errorDescription := some "Authorization code is missing" },
           none, rp)
      else
        (Except.ok
          { tokenResponse := none
            error := some "invalid_state"
            errorDescription := some "State parameter does not match" },
         none, rp)

/-! ## Shared concrete instances used by witnesses and counterexamples -/

/-- A degenerate byte source for the constructor's randomness
parameter (every byte `0`, so `generateRandomString` yields a run of
`A`s). -/
def zeroRand : Nat → Nat := fun _ => 0

/-- A fully-populated valid configuration with caller-supplied
secrets. -/
def sampleConfig : OpenIDConfiguration where
  clientId := "client-1"
  redirectUri := "https://rp.example/cb"
  responseType := none
  scope := none
  authorizationEndpoint := "https://op.example/authorize"
  tokenEndpoint := "https://op.example/token"
  userinfoEndpoint := none
  jwksUri := none
  clientSecret := none
  responseMode := none
  state := some "state-1"
  nonce := some "nonce-1"
  display := none
  prompt := none
  maxAge := none
  uiLocales := none
  idTokenHint := none
  loginHint := none
  acrValues := none

/-- The engine `mkRP sampleConfig` constructs. -/
def sampleRP : RP where
  config :=
    { sampleConfig with
      responseType := some "code"
      scope := some "openid profile email" }
  state := "state-1"
  nonce := "nonce-1"

/-! ## Helper lemmas -/

theorem generateRandomString_length (f : Nat → Nat) (n : Nat) :
    (generateRandomString f n).length = n := by
  simp [generateRandomString, String.length]

theorem generateRandomString_ne_empty (f : Nat → Nat) :
    generateRandomString f 32 ≠ "" := by
  intro h
  have := generateRandomString_length f 32
  rw [h] at this
  simp [String.length] at this

theorem jsOr_ne_empty (o : Option String) (d : String) (hd : d ≠ "") :
    jsOr o d ≠ "" := by
  cases o with
  | none => exact hd
  | some s =>
    simp only [jsOr]
    split
    · exact hd
    · assumption

/-- Every public method returns the instance unchanged (the source
assigns to no field outside the constructor). -/
def enginePreservesSecrets (rp : RP) : Prop :=
  (generateAuthorizationUrlS rp).2 = rp ∧
  (∀ decode now tok, (validateIdTokenS rp decode now tok).2 = rp) ∧
  (∀ code fo, (getTokenS rp code fo).2.2 = rp) ∧
  (∀ refreshTok fo, (refreshTokenS rp refreshTok fo).2.2 = rp) ∧
  (∀ accessToken fo, (getUserInfoS rp accessToken fo).2.2 = rp) ∧
  (∀ fo url, (handleCallbackS rp fo url).2.2 = rp)

theorem handleCallbackS_preserves (rp : RP) (fo : FetchOutcome TokenResponse)
    (url : String) : (handleCallbackS rp fo url).2.2 = rp := by
  simp only [handleCallbackS]
  repeat' split
  all_goals rfl

theorem enginePreservesSecrets_all (rp : RP) : enginePreservesSecrets rp :=
  ⟨rfl, fun _ _ _ => rfl, fun _ _ => rfl, fun _ _ => rfl, fun _ _ => rfl,
   fun fo url => handleCallbackS_preserves rp fo url⟩

/-! ## C6 — constructor validation order -/

/-- C6: a configuration whose first missing (falsy) required field —
in the fixed order `clientId`, `redirectUri`, `authorizationEndpoint`,
`tokenEndpoint` — is `f` makes construction fail with the error naming
exactly `f`; no aggregation of later failures occurs. -/
theorem mkRP_required_field_order (cfg : OpenIDConfiguration)
    (stateRand nonceRand : Nat → Nat) :
    (cfg.clientId = "" →
      mkRP cfg stateRand nonceRand = Except.error "clientId is required") ∧
    (cfg.clientId ≠ "" → cfg.redirectUri = "" →
      mkRP cfg stateRand nonceRand = Except.error "redirectUri is required") ∧
    (cfg.clientId ≠ "" → cfg.redirectUri ≠ "" → cfg.authorizationEndpoint = "" →
      mkRP cfg stateRand nonceRand = Except.error "authorizationEndpoint is required") ∧
    (cfg.clientId ≠ "" → cfg.redirectUri ≠ "" → cfg.authorizationEndpoint ≠ "" →
      cfg.tokenEndpoint = "" →
      mkRP cfg stateRand nonceRand = Except.error "tokenEndpoint is required") := by
  refine ⟨?_, ?_, ?_, ?_⟩ <;> intros <;> simp [mkRP, *]

/-- `sampleConfig` with its `redirectUri` removed (and `clientId`
still present). -/
def cfgNoRedirect : OpenIDConfiguration := { sampleConfig with redirectUri := "" }

theorem mkRP_required_field_order_witness :
    mkRP cfgNoRedirect zeroRand zeroRand = Except.error "redirectUri is required" :=
  (mkRP_required_field_order cfgNoRedirect zeroRand zeroRand).2.1 (by decide) rfl

/-! ## C7 — flow secrets are non-empty and never mutated -/

/-- C7: every successfully constructed engine — even one whose caller
supplied empty strings for the `state`/`nonce` configuration fields —
holds non-empty `state` and `nonce`, and no public operation changes
the instance. -/
theorem mkRP_secrets_invariant (cfg : OpenIDConfiguration)
    (stateRand nonceRand : Nat → Nat) (rp : RP)
    (h : mkRP cfg stateRand nonceRand = Except.ok rp) :
    rp.state ≠ "" ∧ rp.nonce ≠ "" ∧ enginePreservesSecrets rp := by
  unfold mkRP at h
  split at h
  · exact absurd h (by simp)
  split at h
  · exact absurd h (by simp)
  split at h
  · exact absurd h (by simp)
  split at h
  · exact absurd h (by simp)
  injection h with h
  subst h
  exact ⟨jsOr_ne_empty _ _ (generateRandomString_ne_empty stateRand),
         jsOr_ne_empty _ _ (generateRandomString_ne_empty nonceRand),
         enginePreservesSecrets_all _⟩

/-- `sampleConfig` with empty-string secrets supplied by the caller,
forcing the random-generation path. -/
def cfgEmptySecrets : OpenIDConfiguration :=
  { sampleConfig with state := some "", nonce := some "" }

/-- The engine `mkRP cfgEmptySecrets zeroRand zeroRand` constructs. -/
def rpGenerated : RP where
  config :=
    { cfgEmptySecrets with
      responseType := some "code"
      scope := some "openid profile email" }
  state := generateRandomString zeroRand 32
  nonce := generateRandomString zeroRand 32

theorem mkRP_secrets_invariant_witness :
    rpGenerated.state ≠ "" ∧ rpGenerated.nonce ≠ "" ∧
    enginePreservesSecrets rpGenerated :=
  mkRP_secrets_invariant cfgEmptySecrets zeroRand zeroRand rpGenerated rfl

/-! ## C8 — token requests do not mutate the engine -/

/-- C8: for every code, refresh token and transport outcome, `getToken`
and `refreshToken` return the instance unchanged — the values of
`state` and `nonce` (indeed the whole engine) before and after either
call are equal. -/
theorem tokenRequests_frame (rp : RP) :
    (∀ code fo, (getTokenS rp code fo).2.2 = rp) ∧
    (∀ refreshTok fo, (refreshTokenS rp refreshTok fo).2.2 = rp) :=
  ⟨fun _ _ => rfl, fun _ _ => rfl⟩

/-! ## C9 — the authorization-request builder is pure and idempotent -/

/-- C9: `generateAuthorizationUrl` leaves the instance unchanged and a
repeated call on the same instance returns the same URL string. -/
theorem generateAuthorizationUrl_pure (rp : RP) :
    (generateAuthorizationUrlS rp).2 = rp ∧
    (generateAuthorizationUrlS ((generateAuthorizationUrlS rp).2)).1 =
      (generateAuthorizationUrlS rp).1 :=
  ⟨rfl, rfl⟩

/-! ## C1 — exception propagation out of `handleCallback` -/

/-- C1 (counterexample): on the string `"not a url"` — which carries
no URL scheme, so `new URL(url)` throws `TypeError: Invalid URL` —
`handleCallback` propagates the exception to its caller instead of
returning a `CallbackResult`, whatever the transport would have
done. -/
theorem handleCallback_unparseable_url_counterexample :
    handleCallbackS sampleRP (Except.error "network down") "not a url" =
      (Except.error "Invalid URL", none, sampleRP) := rfl

/-- C1 (amended): for every input string that parses as a URL,
`handleCallback` returns a `CallbackResult` and never propagates an
exception: protocol errors and token-exchange failures (the transport
outcome `fo` is universally quantified) are all reported through the
result's error/success fields. -/
theorem handleCallback_no_throw (rp : RP) (fo : FetchOutcome TokenResponse)
    (url : String) (u : URLRecord) (hparse : urlParse url = some u) :
    ∃ r, (handleCallbackS rp fo url).1 = Except.ok r := by
  simp only [handleCallbackS, hparse]
  repeat' split
  all_goals exact ⟨_, rfl⟩

theorem handleCallback_no_throw_witness :
    ∃ r, (handleCallbackS sampleRP (Except.error "network down")
      "https://rp.example/cb?state=state-1&code=abc").1 = Except.ok r :=
  handleCallback_no_throw sampleRP (Except.error "network down")
    "https://rp.example/cb?state=state-1&code=abc"
    { search := "?state=state-1&code=abc" } rfl

/-! ## C2 — state validation precedes code extraction -/

/-- C2: on a callback URL whose query carries no `error` parameter,
if the `state` parameter is absent or differs from the instance's
stored state, `handleCallback` returns the `invalid_state` error
result — regardless of any `code` parameter and of the transport
outcome — and no token exchange is attempted (the exchanged-code
component is `none`). -/
theorem handleCallback_invalid_state (rp : RP) (fo : FetchOutcome TokenResponse)
    (url : String) (u : URLRecord)
    (hparse : urlParse url = some u)
    (herr : paramsGet (parseSearchParams u.search) "error" = none)
    (hstate : ∀ s, paramsGet (parseSearchParams u.search) "state" = some s →
      s ≠ rp.state) :
    handleCallbackS rp fo url =
      (Except.ok
        { tokenResponse := none
          error := some "invalid_state"
          errorDescription := some "State parameter does not match" },
       none, rp) := by
  simp only [handleCallbackS, hparse, herr, jsTruthy]
  cases hs : paramsGet (parseSearchParams u.search) "state" with
  | none => simp
  | some s =>
    have hne := hstate s hs
    simp [hne]

theorem handleCallback_invalid_state_witness :
    handleCallbackS sampleRP (Except.error "network down")
        "https://rp.example/cb?state=other&code=abc" =
      (Except.ok
        { tokenResponse := none
          error := some "invalid_state"
          errorDescription := some "State parameter does not match" },
       none, sampleRP) := by
  refine handleCallback_invalid_state sampleRP (Except.error "network down")
    "https://rp.example/cb?state=other&code=abc"
    { search := "?state=other&code=abc" } rfl rfl ?_
  intro s hs
  have hv : paramsGet (parseSearchParams "?state=other&code=abc") "state" =
      some "other" := rfl
  rw [hv] at hs
  cases hs
  decide

/-! ## C4 — provider-reported errors take precedence -/

/-- C4 (counterexample): a callback URL whose query carries the `error`
parameter with the empty value is not returned as an error result
carrying that value — the source's truthiness test skips the branch and
local state validation runs instead, yielding `invalid_state`. -/
theorem handleCallback_empty_error_counterexample :
    paramsGet (parseSearchParams "?error=&state=other") "error" = some "" ∧
    handleCallbackS sampleRP (Except.error "network down")
        "https://rp.example/cb?error=&state=other" =
      (Except.ok
        { tokenResponse := none
          error := some "invalid_state"
          errorDescription := some "State parameter does not match" },
       none, sampleRP) :=
  ⟨rfl, rfl⟩

/-- C4 (amended): on a callback URL whose query carries a non-empty
`error` parameter, `handleCallback` returns immediately an error
result carrying that error value together with the truthy
`error_description` if any; the state comparison, code extraction and
token exchange are all skipped (no exchanged code, any transport
outcome). -/
theorem handleCallback_provider_error (rp : RP) (fo : FetchOutcome TokenResponse)
    (url : String) (u : URLRecord) (e : String)
    (hparse : urlParse url = some u)
    (herr : paramsGet (parseSearchParams u.search) "error" = some e)
    (hne : e ≠ "") :
    handleCallbackS rp fo url =
      (Except.ok
        { tokenResponse := none
          error := some e
          errorDescription :=
            jsOrUndefined (paramsGet (parseSearchParams u.search) "error_description") },
       none, rp) := by
  simp only [handleCallbackS, hparse, herr, jsTruthy]
  simp [hne]

theorem handleCallback_provider_error_witness :
    handleCallbackS sampleRP (Except.error "network down")
        "https://rp.example/cb?error=access_denied&error_description=User+denied+access&state=state-1&code=abc" =
      (Except.ok
        { tokenResponse := none
          error := some "access_denied"
          errorDescription := some "User denied access" },
       none, sampleRP) := by
  have h := handleCallback_provider_error sampleRP (Except.error "network down")
    "https://rp.example/cb?error=access_denied&error_description=User+denied+access&state=state-1&code=abc"
    { search := "?error=access_denied&error_description=User+denied+access&state=state-1&code=abc" }
    "access_denied" rfl rfl (by decide)
  exact h

/-! ## C3 — `validateIdToken` claim checks -/

/-- A decoder yielding a payload with no `iss` claim but passing the
segment, expiry, audience and nonce checks. -/
def decodeNoIss : String → Option IDTokenPayload := fun _ =>
  some { iss := none, aud := AudClaim.str "client-1", exp := some 2000000000, nonce := none }

/-- A decoder yielding a payload whose `nonce` claim is present but the
empty string (falsy, so the source skips the comparison). -/
def decodeEmptyNonce : String → Option IDTokenPayload := fun _ =>
  some { iss := some "https://op.example", aud := AudClaim.str "client-1",
         exp := some 2000000000, nonce := some "" }

/-- C3 (counterexample): two concrete violations of the claim.  First,
a three-segment token passing all four checks the claim enumerates
(segments, expiry, audience, nonce absent) is nevertheless rejected,
because the source also requires a truthy `iss` claim.  Second, a token
whose `nonce` claim is present as `""` — and so differs from the
instance's stored nonce — is nevertheless accepted, because the
source's truthiness guard skips the comparison for the empty string. -/
theorem validateIdToken_claim_counterexample :
    ((jsSplitDot "h.p.s").length = 3 ∧
     expCheckFails (some 2000000000) 1700000000 = false ∧
     audCheckFails (AudClaim.str "client-1") sampleRP.config.clientId = false ∧
     nonceCheckFails none sampleRP.nonce = false ∧
     validateIdToken sampleRP decodeNoIss 1700000000 "h.p.s" = false) ∧
    (sampleRP.nonce = "nonce-1" ∧ ("" : String) ≠ "nonce-1" ∧
     validateIdToken sampleRP decodeEmptyNonce 1700000000 "h.p.s" = true) := by
  exact ⟨⟨rfl, rfl, rfl, rfl, rfl⟩, rfl, by decide, rfl⟩

/-- C3 (amended): `validateIdToken` returns `false` whenever the token
has other than three dot-separated segments, or the middle segment
fails to decode (no exception escapes), or the decoded payload fails
the expiry check (`exp` at or before `now`), the issuer check (`iss`
absent or empty), the audience check (`aud` neither equal to the
configured `clientId` nor an array containing it), or the nonce check
(a present non-empty `nonce` claim differing from the stored nonce);
and it returns `true` for a three-segment token whose payload decodes
and passes all four checks — in particular with a nonce claim that
matches, is absent, or is empty. -/
theorem validateIdToken_spec (rp : RP) (decode : String → Option IDTokenPayload)
    (now : Int) (tok : String) :
    ((jsSplitDot tok).length ≠ 3 → validateIdToken rp decode now tok = false) ∧
    (∀ h p s, jsSplitDot tok = [h, p, s] → decode p = none →
      validateIdToken rp decode now tok = false) ∧
    (∀ h p s payload, jsSplitDot tok = [h, p, s] → decode p = some payload →
      (expCheckFails payload.exp now = true ∨
       issCheckFails payload.iss = true ∨
       audCheckFails payload.aud rp.config.clientId = true ∨
       nonceCheckFails payload.nonce rp.nonce = true) →
      validateIdToken rp decode now tok = false) ∧
    (∀ h p s payload, jsSplitDot tok = [h, p, s] → decode p = some payload →
      expCheckFails payload.exp now = false →
      issCheckFails payload.iss = false →
      audCheckFails payload.aud rp.config.clientId = false →
      nonceCheckFails payload.nonce rp.nonce = false →
      validateIdToken rp decode now tok = true) := by
  refine ⟨?_, ?_, ?_, ?_⟩
  · intro hlen
    unfold validateIdToken
    split
    · rename_i heq
      rw [heq] at hlen
      simp at hlen
    · rfl
  · intro h p s hsplit hdec
    unfold validateIdToken
    rw [hsplit]
    dsimp only
    rw [hdec]
  · intro h p s payload hsplit hdec hfail
    unfold validateIdToken
    rw [hsplit]
    dsimp only
    rw [hdec]
    rcases hfail with hf | hf | hf | hf <;> simp [hf]
  · intro h p s payload hsplit hdec h1 h2 h3 h4
    unfold validateIdToken
    rw [hsplit]
    dsimp only
    rw [hdec]
    simp [h1, h2, h3, h4]

/-- A decoder yielding a payload passing every check of the source
against `sampleRP` at time `1700000000`. -/
def decodeValid : String → Option IDTokenPayload := fun _ =>
  some { iss := some "https://op.example", aud := AudClaim.str "client-1",
         exp := some 1700003600, nonce := some "nonce-1" }

theorem validateIdToken_spec_witness :
    validateIdToken sampleRP decodeValid 1700000000 "h.p.s" = true :=
  (validateIdToken_spec sampleRP decodeValid 1700000000 "h.p.s").2.2.2
    "h" "p" "s"
    { iss := some "https://op.example", aud := AudClaim.str "client-1",
      exp := some 1700003600, nonce := some "nonce-1" }
    rfl rfl rfl rfl rfl rfl

/-! ## C10 — absent `exp` passes the expiry check -/

/-- C10: the expiry check compares `payload.exp <= now`, which is false
in JavaScript when `exp` is `undefined`; hence a well-formed
three-segment token whose decoded payload has no `exp` claim, a
non-empty `iss`, an `aud` equal to (or an array containing) the
configured `clientId`, and no differing nonce claim, validates to
`true`. -/
theorem validateIdToken_absent_exp (rp : RP)
    (decode : String → Option IDTokenPayload) (now : Int)
    (tok h p s : String) (payload : IDTokenPayload) (issuer : String)
    (hsplit : jsSplitDot tok = [h, p, s])
    (hdec : decode p = some payload)
    (hexp : payload.exp = none)
    (hiss : payload.iss = some issuer) (hissne : issuer ≠ "")
    (haud : audCheckFails payload.aud rp.config.clientId = false)
    (hnonce : payload.nonce = none ∨ payload.nonce = some rp.nonce) :
    validateIdToken rp decode now tok = true := by
  unfold validateIdToken
  rw [hsplit]
  dsimp only
  rw [hdec]
  have h1 : expCheckFails payload.exp now = false := by rw [hexp]; rfl
  have h2 : issCheckFails payload.iss = false := by
    rw [hiss]; simpa [issCheckFails] using hissne
  have h4 : nonceCheckFails payload.nonce rp.nonce = false := by
    rcases hnonce with hn | hn <;> simp [nonceCheckFails, hn]
  simp [h1, h2, haud, h4]

/-- A decoder yielding a payload with no `exp` claim at all. -/
def decodeNoExp : String → Option IDTokenPayload := fun _ =>
  some { iss := some "https://op.example", aud := AudClaim.arr ["other", "client-1"],
         exp := none, nonce := none }

theorem validateIdToken_absent_exp_witness :
    validateIdToken sampleRP decodeNoExp 1700000000 "h.p.s" = true :=
  validateIdToken_absent_exp sampleRP decodeNoExp 1700000000 "h.p.s"
    "h" "p" "s"
    { iss := some "https://op.example", aud := AudClaim.arr ["other", "client-1"],
      exp := none, nonce := none }
    "https://op.example" rfl rfl rfl rfl (by decide) rfl (Or.inl rfl)

/-! ## C5 — authorization-request query parameters -/

theorem paramsGet_append (l1 l2 : List (String × String)) (k : String) :
    paramsGet (l1 ++ l2) k = (paramsGet l1 k).or (paramsGet l2 k) := by
  simp only [paramsGet, List.find?_append]
  cases l1.find? (fun p => p.fst == k) <;> simp [Option.or]

theorem paramsGet_truthyParam_self (k : String) (v : Option String) :
    paramsGet (truthyParam k v) k = jsOrUndefined v := by
  cases v with
  | none => rfl
  | some s =>
    simp only [truthyParam, jsOrUndefined, jsTruthy]
    by_cases hs : s = "" <;> simp [hs, paramsGet, List.find?]

theorem paramsGet_truthyParam_ne (k k' : String) (v : Option String)
    (h : k ≠ k') : paramsGet (truthyParam k v) k' = none := by
  have hb : (k == k') = false := beq_eq_false_iff_ne.mpr h
  cases v with
  | none => rfl
  | some s =>
    simp only [truthyParam]
    split
    · rfl
    · simp [paramsGet, List.find?, hb]

theorem paramsGet_maxAgeParam_self (v : Option Int) :
    paramsGet (maxAgeParam v) "max_age" = Option.map toString v := by
  cases v <;> simp [maxAgeParam, paramsGet, List.find?]

theorem paramsGet_maxAgeParam_ne (k' : String) (v : Option Int)
    (h : "max_age" ≠ k') : paramsGet (maxAgeParam v) k' = none := by
  have hb : (("max_age" : String) == k') = false := beq_eq_false_iff_ne.mpr h
  cases v <;> simp [maxAgeParam, paramsGet, List.find?, hb]

theorem paramsGet_nil (k : String) : paramsGet [] k = none := rfl

theorem paramsGet_cons (kv : String × String) (l : List (String × String))
    (k : String) :
    paramsGet (kv :: l) k = if kv.fst == k then some kv.snd else paramsGet l k := by
  by_cases hk : (kv.fst == k) = true <;> simp [paramsGet, List.find?, hk]

/-- The full characterization of the authorization-request query:
the URL is the authorization endpoint carrying the serialized
parameters; the six mandatory parameters are always present with the
configured values; each optional string passthrough parameter is
present exactly when its configuration field is truthy (set and
non-empty), and `max_age` is present exactly when `maxAge` is set,
serialized in decimal. -/
def authParamsSpec (rp : RP) : Prop :=
  generateAuthorizationUrl rp =
    rp.config.authorizationEndpoint ++ "?" ++ serializeParams (authorizationParams rp) ∧
  paramsGet (authorizationParams rp) "client_id" = some rp.config.clientId ∧
  paramsGet (authorizationParams rp) "redirect_uri" = some rp.config.redirectUri ∧
  paramsGet (authorizationParams rp) "response_type" = some (Option.getD rp.config.responseType "") ∧
  paramsGet (authorizationParams rp) "scope" = some (Option.getD rp.config.scope "") ∧
  paramsGet (authorizationParams rp) "state" = some rp.state ∧
  paramsGet (authorizationParams rp) "nonce" = some rp.nonce ∧
  paramsGet (authorizationParams rp) "response_mode" = jsOrUndefined rp.config.responseMode ∧
  paramsGet (authorizationParams rp) "display" = jsOrUndefined rp.config.display ∧
  paramsGet (authorizationParams rp) "prompt" = jsOrUndefined rp.config.prompt ∧
  paramsGet (authorizationParams rp) "max_age" = Option.map toString rp.config.maxAge ∧
  paramsGet (authorizationParams rp) "ui_locales" = jsOrUndefined rp.config.uiLocales ∧
  paramsGet (authorizationParams rp) "id_token_hint" = jsOrUndefined rp.config.idTokenHint ∧
  paramsGet (authorizationParams rp) "login_hint" = jsOrUndefined rp.config.loginHint ∧
  paramsGet (authorizationParams rp) "acr_values" = jsOrUndefined rp.config.acrValues

theorem authParamsSpec_all (rp : RP) : authParamsSpec rp := by
  refine ⟨rfl, ?_, ?_, ?_, ?_, ?_, ?_, ?_, ?_, ?_, ?_, ?_, ?_, ?_, ?_⟩ <;>
    simp [authorizationParams, paramsGet_append, paramsGet_cons, paramsGet_nil,
      paramsGet_truthyParam_self, paramsGet_truthyParam_ne,
      paramsGet_maxAgeParam_self, paramsGet_maxAgeParam_ne, Option.or_none,
      Option.or_some, Option.none_or]

/-- C5 (amended): for every successfully constructed instance, the
authorization request always carries `client_id`, `redirect_uri`,
`response_type`, `scope`, `state`, `nonce`; each optional string
passthrough parameter appears exactly when the corresponding
configuration field is set to a non-empty string; and `max_age`
appears exactly when `maxAge` is set, serialized as its decimal
numeric value. -/
theorem generateAuthorizationUrl_params (cfg : OpenIDConfiguration)
    (stateRand nonceRand : Nat → Nat) (rp : RP)
    (_h : mkRP cfg stateRand nonceRand = Except.ok rp) : authParamsSpec rp :=
  authParamsSpec_all rp

/-- `sampleConfig` with the optional passthrough fields populated,
`responseMode` and `uiLocales` being set to the empty string. -/
def cfgOptional : OpenIDConfiguration :=
  { sampleConfig with
    responseMode := some ""
    display := some "page"
    prompt := some "login"
    maxAge := some 0
    uiLocales := some ""
    loginHint := some "user@example.com" }

/-- The engine `mkRP cfgOptional` constructs. -/
def rpOptional : RP where
  config :=
    { cfgOptional with
      responseType := some "code"
      scope := some "openid profile email" }
  state := "state-1"
  nonce := "nonce-1"

/-- C5 (counterexample): a successfully constructed instance whose
`responseMode` configuration field is set (to the empty string) emits
no `response_mode` query parameter, refuting the claimed "appears if
and only if the corresponding configuration field is set". -/
theorem authParams_empty_optional_counterexample :
    mkRP cfgOptional zeroRand zeroRand = Except.ok rpOptional ∧
    rpOptional.config.responseMode = some "" ∧
    paramsGet (authorizationParams rpOptional) "response_mode" = none :=
  ⟨rfl, rfl, rfl⟩

theorem generateAuthorizationUrl_params_witness : authParamsSpec rpOptional :=
  generateAuthorizationUrl_params cfgOptional zeroRand zeroRand rpOptional rfl
